import Mathlib

/-!
Verification of the standup bot's orchestration engine (src/src/database.js and
the bot file bundled with it) against its natural-language design document.

Modelling conventions.

* Time is measured in whole minutes since an epoch whose minute 0 falls at
  00:00 on a Thursday (as the Unix epoch does).  The database clock, the
  scheduler clock and the JavaScript `Date` clock of the host process are the
  same clock.  The host runs in the canonical reference timezone
  (Europe/Lisbon at standard time, i.e. UTC), so SQLite's `localtime`
  modifier and JavaScript's local `Date` accessors agree with this clock;
  conversions into a subscriber's configured timezone are an added offset,
  supplied as an environment `tzOffset : String → Nat` giving, for each IANA
  name, its offset from the reference clock in minutes modulo 1440 at the
  instant under consideration (this is what `Date.toLocaleString` with a
  `timeZone` option computes).
* SQLite rows become Lean structures; `NULL`able columns become `Option`.
  SQL `WHERE` clauses become `List.filter`; `ORDER BY` is dropped because no
  claim under study depends on row order.
* JavaScript's `x || d` on strings is falsy both for `null`/`undefined` and
  for the empty string; `jsOr` reproduces that.
-/

/-- Minutes in a day. -/
def minutesPerDay : Nat := 1440

/-- Hour and minute of the day containing minute instant `m`. -/
def hmOf (m : Nat) : Nat × Nat := ((m / 60) % 24, m % 60)

/-- Day number of minute instant `m` (a calendar day on the reference clock).
This is what SQLite's `date('now', 'localtime')` identifies. -/
def dayOf (m : Nat) : Nat := m / minutesPerDay

/-- Day of week of instant `m`: 0 = Sunday, …, 6 = Saturday, anchored so that
day 0 of the epoch is a Thursday (= 4), as for the Unix epoch. -/
def dowOf (m : Nat) : Nat := (dayOf m + 4) % 7

/-- The cron field `1-5` used by `scheduleStandups` (node-schedule day-of-week
numbering: Monday = 1 … Friday = 5). -/
def isWeekday (m : Nat) : Bool := decide (1 ≤ dowOf m ∧ dowOf m ≤ 5)

/-- JavaScript `s || d` for a possibly missing string `s`: the empty string is
falsy, exactly like `null`/`undefined`. -/
def jsOr (o : Option String) (d : String) : String :=
  match o with
  | none => d
  | some s => if s = "" then d else s

/-- A row of the `subscriptions` table.  `timezone` and `vacation_until` are
nullable; `vacation_until` is a DATE, modelled as a day number on the
reference clock (the stored ISO `YYYY-MM-DD` strings compare the same way
day numbers do). -/
structure Subscription where
  user_id : Nat
  username : String
  timezone : Option String
  is_on_vacation : Bool
  vacation_until : Option Nat
  deriving DecidableEq, Repr

/-- `getActiveSubscribers`: `SELECT * FROM subscriptions WHERE
is_on_vacation = 0 OR (is_on_vacation = 1 AND vacation_until <
date('now','localtime'))`.  In SQL a comparison against a `NULL`
`vacation_until` is not true, so a vacationing row with no end date is
excluded. -/
def getActiveSubscribers (subs : List Subscription) (today : Nat) :
    List Subscription :=
  subs.filter (fun s =>
    !s.is_on_vacation ||
      (s.is_on_vacation &&
        match s.vacation_until with
        | some d => decide (d < today)
        | none => false))

/-- The subscribers matched by one firing of the daily standup job
(`scheduleStandups`).  The job is installed on the cron expression
`minute hour * * 1-5`, so its body runs exactly when the reference clock
reads `hour:minute` on a weekday; the body fetches the active subscribers
and starts a standup (and sends a reminder) for each whose local
hour:minute — `toLocaleString` in `subscriber.timezone || 'Europe/Lisbon'` —
equals `hour:minute`.  At any other instant no evaluation happens and nobody
is matched. -/
def standupTick (tzOffset : String → Nat) (hour minute : Nat)
    (subs : List Subscription) (t : Nat) : List Subscription :=
  if isWeekday t && (hmOf t).1 == hour && (hmOf t).2 == minute then
    (getActiveSubscribers subs (dayOf t)).filter (fun s =>
      (hmOf (t + tzOffset (jsOr s.timezone "Europe/Lisbon"))).1 == hour &&
      (hmOf (t + tzOffset (jsOr s.timezone "Europe/Lisbon"))).2 == minute)
  else []

/-- A row of the `standups` table.  `yesterday`/`today`/`blockers` are kept
as `Option String` (`blockers` is nullable in the schema; the other two are
passed straight from the in-memory answer buffer, where an unanswered slot
is `undefined`). -/
structure StandupRow where
  user_id : Nat
  username : String
  yesterday : Option String
  today : Option String
  blockers : Option String
  submitted_at : Nat
  deriving DecidableEq, Repr

/-- `addStandup`: first `DELETE FROM standups WHERE user_id = ? AND
datetime(submitted_at) BETWEEN datetime(start-of-day) AND datetime(end-of-day)`,
then `INSERT` the new row stamped `datetime('now','localtime')`.  At minute
granularity the BETWEEN window `[00:00:00.000, 23:59:59.999]` is exactly the
calendar day of `now`. -/
def addStandup (table : List StandupRow) (now : Nat) (uid : Nat)
    (uname : String) (y t b : Option String) : List StandupRow :=
  (table.filter (fun r => !(r.user_id == uid && dayOf r.submitted_at == dayOf now)))
    ++ [⟨uid, uname, y, t, b, now⟩]

/-! ### In-memory interview engine (the bot file) -/

/-- The in-progress answer buffer kept in `standupResponses`.  A JS answer
slot holds a string once answered (`""` when skipped) and is `undefined`
otherwise; we use `Option String` with `some ""` for a skipped slot. -/
structure Resp where
  username : String
  answers : List (Option String)
  deriving DecidableEq, Repr

/-- `Map.prototype.set` on a map keyed by user id. -/
def mapSet {α : Type} (m : List (Nat × α)) (k : Nat) (v : α) : List (Nat × α) :=
  (k, v) :: m.filter (fun p => p.1 != k)

/-- `Map.prototype.get`. -/
def mapGet {α : Type} (m : List (Nat × α)) (k : Nat) : Option α :=
  (m.find? (fun p => p.1 == k)).map (fun p => p.2)

/-- `Map.prototype.delete`. -/
def mapDel {α : Type} (m : List (Nat × α)) (k : Nat) : List (Nat × α) :=
  m.filter (fun p => p.1 != k)

/-- JavaScript array element assignment `a[i] = v`: in-range indices are
overwritten; an out-of-range assignment grows the array, with the gap
filled by holes (`undefined`, here `none`). -/
def jsArraySet (l : List (Option String)) (i : Nat) (v : Option String) :
    List (Option String) :=
  (l ++ List.replicate (i + 1 - l.length) none).set i v

/-- The three standup questions. -/
def QUESTIONS : List String :=
  ["What did you work on yesterday? (press /skip if Monday)",
   "What will you work on today?",
   "Are there any blockers or impediments? (optional - press /skip if none)"]

/-- The engine's mutable world: the two in-memory maps (`userStates`,
`standupResponses`), the `standups` table, and the outbound messages sent to
the shared channel and to individual users. -/
structure EngineState where
  userStates : List (Nat × Nat)
  standupResponses : List (Nat × Resp)
  standups : List StandupRow
  channelMsgs : List String
  userMsgs : List (Nat × String)
  deriving DecidableEq, Repr

/-- `startUserStandup`: unconditionally `userStates.set(userId,
{currentQuestion: 0})`, then sends the intro line and the first question.
There is no session-already-open check in this function. -/
def startUserStandup (st : EngineState) (uid : Nat) : EngineState :=
  { st with
    userStates := mapSet st.userStates uid 0,
    userMsgs := st.userMsgs ++
      [(uid, "Starting your daily standup..."), (uid, QUESTIONS.getD 0 "")] }

/-- Replies a command handler can produce, abstracting the text sent back. -/
inductive CmdReply where
  | sessionOpen
  | needSubscribe
  | started
  deriving DecidableEq, Repr

/-- The `/standup` command handler: rejects when `userStates.has(userId)`,
then when the user is not subscribed, and otherwise calls
`startUserStandup`. -/
def standupCommand (st : EngineState) (isSub : Bool) (uid : Nat) :
    EngineState × CmdReply :=
  if (mapGet st.userStates uid).isSome then
    ({ st with userMsgs := st.userMsgs ++
        [(uid, "You already have an ongoing standup session. Please complete it first.")] },
     CmdReply.sessionOpen)
  else if !isSub then
    ({ st with userMsgs := st.userMsgs ++
        [(uid, "You need to /subscribe first before you can submit standups.")] },
     CmdReply.needSubscribe)
  else (startUserStandup st uid, CmdReply.started)

/-- The JS test `answers[i] && answers[i].trim()`: truthy (non-empty) string
whose trim is also truthy. -/
def hasContent (o : Option String) : Bool :=
  match o with
  | none => false
  | some s => s != "" && s.trim != ""

/-- `formatStandupResponse`: the compiled human-readable summary.  The
markdown glyphs and the submission timestamp are abbreviated; the
conditional structure (yesterday and blockers sections only when their
answer has content) is kept. -/
def formatStandupResponse (r : Resp) : String :=
  let m0 := "Daily Standup - @" ++ r.username ++ "\n\n"
  let m1 := if hasContent (r.answers.getD 0 none) then
      m0 ++ "Yesterday:\n" ++ (r.answers.getD 0 none).getD "" ++ "\n\n"
    else m0
  let m2 := m1 ++ "Today:\n" ++ (r.answers.getD 1 none).getD ""
  if hasContent (r.answers.getD 2 none) then
    m2 ++ "\n\nBlockers:\n" ++ (r.answers.getD 2 none).getD ""
  else m2

/-- The `msg.text?.startsWith('/')` guard that makes the free-text handler
ignore commands: a string starts with `"/"` iff its first character is
`'/'`. -/
def startsWithSlash (text : String) : Bool := text.data.head? == some '/'

/-- The free-text message handler (`bot.on('message')`).  `persistOk` models
whether the awaited `db.addStandup` call inside the `try` succeeds; when it
throws, the `catch` block deletes both map entries and sends an error
message.  `userStates.delete` runs before the persistence call, so the
session entry is gone on every path through the completion branch. -/
def messageHandler (st : EngineState) (uid : Nat) (uname text : String)
    (now : Nat) (persistOk : Bool) : EngineState :=
  if startsWithSlash text then st
  else
    match mapGet st.userStates uid with
    | none => st
    | some q =>
      let response := (mapGet st.standupResponses uid).getD ⟨uname, []⟩
      let response := { response with answers := jsArraySet response.answers q (some text) }
      let st := { st with standupResponses := mapSet st.standupResponses uid response }
      if q < 2 then
        { st with
          userStates := mapSet st.userStates uid (q + 1),
          userMsgs := st.userMsgs ++ [(uid, QUESTIONS.getD (q + 1) "")] }
      else
        let st := { st with userStates := mapDel st.userStates uid }
        if persistOk then
          { st with
            standups := addStandup st.standups now uid response.username
              (response.answers.getD 0 none) (response.answers.getD 1 none)
              (response.answers.getD 2 none),
            channelMsgs := st.channelMsgs ++ [formatStandupResponse response],
            userMsgs := st.userMsgs ++
              [(uid, "Thank you! Your standup has been submitted.")],
            standupResponses := mapDel st.standupResponses uid }
        else
          { st with
            userMsgs := st.userMsgs ++
              [(uid, "Sorry, there was an error processing your response. Please try again later.")],
            standupResponses := mapDel st.standupResponses uid }

/-- Replies of the `/skip` handler. -/
inductive SkipReply where
  | noSession
  | advanced
  | completed
  | cannotSkip
  deriving DecidableEq, Repr

/-- The `/skip` command handler: a no-op without a session; accepted when
`currentQuestion` is 0 or 2 (the slot is stored as the empty string and the
session advances or completes); otherwise rejected with the cannot-skip
message and no state change.  The completion branch has no try/catch in the
source; persistence is taken to succeed. -/
def skipHandler (st : EngineState) (uid : Nat) (uname : String) (now : Nat) :
    EngineState × SkipReply :=
  match mapGet st.userStates uid with
  | none => (st, SkipReply.noSession)
  | some q =>
    if q == 0 || q == 2 then
      let response := (mapGet st.standupResponses uid).getD
        ⟨uname, [some "", some "", some ""]⟩
      let response := { response with answers := jsArraySet response.answers q (some "") }
      let st := { st with standupResponses := mapSet st.standupResponses uid response }
      if q < 2 then
        ({ st with
           userStates := mapSet st.userStates uid (q + 1),
           userMsgs := st.userMsgs ++ [(uid, QUESTIONS.getD (q + 1) "")] },
         SkipReply.advanced)
      else
        let st := { st with userStates := mapDel st.userStates uid }
        ({ st with
           standups := addStandup st.standups now uid response.username
             (response.answers.getD 0 none) (response.answers.getD 1 none)
             (response.answers.getD 2 none),
           channelMsgs := st.channelMsgs ++ [formatStandupResponse response],
           userMsgs := st.userMsgs ++
             [(uid, "Thank you! Your standup has been submitted.")],
           standupResponses := mapDel st.standupResponses uid },
         SkipReply.completed)
    else
      ({ st with userMsgs := st.userMsgs ++
          [(uid, "This question cannot be skipped. Please provide an answer.")] },
       SkipReply.cannotSkip)

/-! ### Standup status and the late-reminder job -/

/-- One element of the array produced by `getStandupStatus` (the
`submittedAt` field is dropped; no claim reads it). -/
structure StatusEntry where
  username : String
  hasSubmitted : Bool
  isOnVacation : Bool
  vacationUntil : Option Nat
  deriving DecidableEq, Repr

/-- `getStandupStatus`: all subscribers joined against today's standups.
`isOnVacation` copies the raw `is_on_vacation` column with no look at
`vacation_until`. -/
def getStandupStatus (subs : List Subscription) (standups : List StandupRow)
    (today : Nat) : List StatusEntry :=
  let todays := standups.filter (fun r => dayOf r.submitted_at == today)
  subs.map (fun sub =>
    ⟨sub.username, (todays.find? (fun r => r.user_id == sub.user_id)).isSome,
     sub.is_on_vacation, sub.vacation_until⟩)

/-- The filter inside the fired late-reminder job:
`status.filter((s) => !s.hasSubmitted && !s.isOnVacation)`. -/
def lateMissing (subs : List Subscription) (standups : List StandupRow)
    (today : Nat) : List StatusEntry :=
  (getStandupStatus subs standups today).filter
    (fun s => !s.hasSubmitted && !s.isOnVacation)

/-- `getSubscriberByUsername`. -/
def getSubscriberByUsername (subs : List Subscription) (uname : String) :
    Option Subscription :=
  subs.find? (fun s => s.username == uname)

/-- The `for (const user of missing)` loop of the fired late-reminder job:
`records` is the `late_reminders` table restricted to today (after
`cleanupOldLateReminders` removed every older row), `sent` the log of
reminders actually sent.  For each entry the subscriber is resolved by
username; one with a record for today is skipped, otherwise the reminder is
sent and the record inserted before the loop moves on. -/
def lateReminderLoop (subs : List Subscription) :
    List StatusEntry → List Nat → List Nat → List Nat × List Nat
  | [], records, sent => (records, sent)
  | e :: rest, records, sent =>
    match getSubscriberByUsername subs e.username with
    | none => lateReminderLoop subs rest records sent
    | some sub =>
      if sub.user_id ∈ records then lateReminderLoop subs rest records sent
      else lateReminderLoop subs rest (records ++ [sub.user_id]) (sent ++ [sub.user_id])

/-- One full run of the fired late-reminder job body. -/
def lateReminderJobRun (subs : List Subscription) (standups : List StandupRow)
    (today : Nat) (records sent : List Nat) : List Nat × List Nat :=
  lateReminderLoop subs (lateMissing subs standups today) records sent

/-- The two late-reminder settings rows. -/
structure LateSettings where
  enabled : Bool
  hours : Nat
  deriving DecidableEq, Repr

/-- `scheduleLateReminders hour minute` at instant `now`: returns the fire
time of the installed one-shot job, or `none` when no job is installed.
Disabled settings return early; otherwise the fire time is today's date at
`hour:minute` plus `hours` hours, installed only if still in the future. -/
def scheduleLateReminders (settings : LateSettings) (hour minute : Nat)
    (now : Nat) : Option Nat :=
  if !settings.enabled then none
  else if now < dayOf now * minutesPerDay + hour * 60 + minute + settings.hours * 60 then
    some (dayOf now * minutesPerDay + hour * 60 + minute + settings.hours * 60)
  else none

/-! ### Orchestrator job lifecycle -/

/-- A live scheduled job: the recurring weekday trigger or a pending
one-shot late-reminder check. -/
inductive Job where
  | standupTrigger (hour minute : Nat)
  | lateCheck (fireAt : Nat)
  deriving DecidableEq, Repr

/-- Whether a job is the recurring standup trigger
(`global.standupJob`). -/
def Job.isStandupTrigger : Job → Bool
  | Job.standupTrigger _ _ => true
  | Job.lateCheck _ => false

/-- Settings table (`standup_hour`, `standup_minute`,
`late_reminder_enabled`, `late_reminder_hours`). -/
structure Settings where
  standup_hour : Nat
  standup_minute : Nat
  late_reminder_enabled : Bool
  late_reminder_hours : Nat
  deriving DecidableEq, Repr

/-- The orchestrator's set of live jobs. -/
structure Orchestrator where
  jobs : List Job
  deriving DecidableEq, Repr

/-- `scheduleStandups`: cancel `global.standupJob` if present, read the
stored time, install the replacement recurring job. -/
def scheduleStandups (o : Orchestrator) (s : Settings) : Orchestrator :=
  ⟨o.jobs.filter (fun j => !j.isStandupTrigger) ++
    [Job.standupTrigger s.standup_hour s.standup_minute]⟩

/-- The `/set_time` handler: admin check, bounds check, `setStandupTime`,
then `scheduleStandups()` (which reads the freshly stored values). -/
def setTimeHandler (o : Orchestrator) (s : Settings) (isAdminUser : Bool)
    (hour minute : Nat) : Orchestrator × Settings :=
  if !isAdminUser then (o, s)
  else if hour > 23 || minute > 59 then (o, s)
  else
    let s := { s with standup_hour := hour, standup_minute := minute }
    (scheduleStandups o s, s)

/-- The `/late_reminder_hours` handler: admin check, 1–12 bounds check,
`setLateReminderHours`, then a confirmation message.  No job is cancelled
or installed. -/
def lateReminderHoursHandler (o : Orchestrator) (s : Settings)
    (isAdminUser : Bool) (hours : Nat) : Orchestrator × Settings :=
  if !isAdminUser then (o, s)
  else if hours < 1 || hours > 12 then (o, s)
  else (o, { s with late_reminder_hours := hours })

/-! ### Timezone column of the subscriptions table -/

/-- A character admitted by the `[A-Za-z_]` class of the timezone command
regex. -/
def isTzChar (c : Char) : Bool := c.isAlpha || c == '_'

/-- The shape `[A-Za-z_]+/[A-Za-z_]+` that the `/timezone Region/City`
command regex enforces before `setUserTimezone` is ever called. -/
def isTzFormat (s : String) : Bool :=
  match s.data.splitOn '/' with
  | [a, b] => !a.isEmpty && !b.isEmpty && a.all isTzChar && b.all isTzChar
  | _ => false

/-- The timezone column, keyed by `user_id` (a PRIMARY KEY: at most one row
per id by construction of the operations below). -/
abbrev TzTable : Type := List (Nat × Option String)

/-- `addSubscriber`: `INSERT OR REPLACE INTO subscriptions (user_id,
username) VALUES (?, ?)` — the unspecified `timezone` column takes its
declared DEFAULT `'Europe/Lisbon'`, also on REPLACE. -/
def addSubscriberTz (st : TzTable) (uid : Nat) : TzTable :=
  (uid, some "Europe/Lisbon") :: st.filter (fun p => p.1 != uid)

/-- `removeSubscriber`: `DELETE FROM subscriptions WHERE user_id = ?`. -/
def removeSubscriberTz (st : TzTable) (uid : Nat) : TzTable :=
  st.filter (fun p => p.1 != uid)

/-- `setUserTimezone`: `UPDATE subscriptions SET timezone = ? WHERE
user_id = ?` (a no-op when no row matches). -/
def setUserTimezone (st : TzTable) (uid : Nat) (tz : String) : TzTable :=
  st.map (fun p => if p.1 == uid then (p.1, some tz) else p)

/-- `getUserTimezone`: `result?.timezone || 'Europe/Lisbon'`. -/
def getUserTimezone (st : TzTable) (uid : Nat) : String :=
  jsOr ((st.find? (fun p => p.1 == uid)).bind (fun p => p.2)) "Europe/Lisbon"

/-- Subscription-table states reachable through the bot's own mutators: the
table starts empty; `setUserTimezone` is only invoked by the `/timezone`
handler after its argument matched the `Region/City` regex. -/
inductive TzReachable : TzTable → Prop where
  | init : TzReachable []
  | subscribe (uid : Nat) {st : TzTable} :
      TzReachable st → TzReachable (addSubscriberTz st uid)
  | unsubscribe (uid : Nat) {st : TzTable} :
      TzReachable st → TzReachable (removeSubscriberTz st uid)
  | setTz (uid : Nat) (tz : String) {st : TzTable} :
      TzReachable st → isTzFormat tz = true →
      TzReachable (setUserTimezone st uid tz)

/-! ### Helper lemmas -/

theorem mapGet_mapSet_self {α : Type} (m : List (Nat × α)) (k : Nat) (v : α) :
    mapGet (mapSet m k v) k = some v := by
  simp [mapGet, mapSet, List.find?]

theorem mapGet_mapDel_self {α : Type} (m : List (Nat × α)) (k : Nat) :
    mapGet (mapDel m k) k = none := by
  have h : List.find? (fun p => p.1 == k) (List.filter (fun p => p.1 != k) m)
      = none := by
    rw [List.find?_eq_none]
    intro p hp
    have h2 := (List.mem_filter.mp hp).2
    simp only [bne_iff_ne, ne_eq] at h2
    simp [h2]
  simp [mapGet, mapDel, h]

theorem jsArraySet_getElem? (l : List (Option String)) (i : Nat)
    (v : Option String) : (jsArraySet l i v)[i]? = some v := by
  have hlen : i < (l ++ List.replicate (i + 1 - l.length) none).length := by
    simp [List.length_append, List.length_replicate]
    omega
  simp [jsArraySet, List.getElem?_set_self hlen]

theorem jsArraySet_getD (l : List (Option String)) (i : Nat) (v : Option String) :
    (jsArraySet l i v).getD i none = v := by
  simp [List.getD_eq_getElem?_getD, jsArraySet_getElem?]

theorem filter_addStandup (table : List StandupRow) (now : Nat) (uid : Nat)
    (uname : String) (y t b : Option String) :
    (addStandup table now uid uname y t b).filter
      (fun r => r.user_id == uid && dayOf r.submitted_at == dayOf now)
    = [⟨uid, uname, y, t, b, now⟩] := by
  unfold addStandup
  rw [List.filter_append]
  have h1 : (table.filter
      (fun r => !(r.user_id == uid && dayOf r.submitted_at == dayOf now))).filter
      (fun r => r.user_id == uid && dayOf r.submitted_at == dayOf now) = [] := by
    rw [List.filter_eq_nil_iff]
    intro a ha
    have h2 := (List.mem_filter.mp ha).2
    simp only [Bool.not_eq_true'] at h2
    simp [h2]
  rw [h1]
  simp [List.filter]

/-- C5.  Completing a standup a second time in the same calendar day deletes
the prior same-day `standups` row for that user and leaves exactly one row
for that user that day, carrying the fields of the second completion. -/
theorem c5_response_superseded (table : List StandupRow) (uid : Nat)
    (u1 u2 : String) (now1 now2 : Nat) (y1 t1 b1 y2 t2 b2 : Option String)
    (_hday : dayOf now1 = dayOf now2) :
    ((addStandup (addStandup table now1 uid u1 y1 t1 b1) now2 uid u2 y2 t2 b2).filter
      (fun r => r.user_id == uid && dayOf r.submitted_at == dayOf now2))
    = [⟨uid, u2, y2, t2, b2, now2⟩] :=
  filter_addStandup _ now2 uid u2 y2 t2 b2

/-- Witness for C5 at a concrete table and day. -/
theorem c5_response_superseded_witness :
    dayOf 100 = dayOf 200 ∧
    ((addStandup (addStandup [] 100 7 "bob" (some "a") (some "b") none)
        200 7 "bob" (some "c") (some "d") (some "e")).filter
      (fun r => r.user_id == 7 && dayOf r.submitted_at == dayOf 200))
    = [⟨7, "bob", some "c", some "d", some "e", 200⟩] :=
  ⟨by decide,
   c5_response_superseded [] 7 "bob" "bob" 100 200
     (some "a") (some "b") none (some "c") (some "d") (some "e") (by decide)⟩

/-- C7.  `scheduleLateReminders`: with the enabled flag false at
installation time no late-reminder job is installed; with it true, and
invoked at the trigger moment (as the daily trigger job does) with a
positive delay, the job is installed to fire at the trigger moment plus the
configured delay hours. -/
theorem c7_late_check_time (settings : LateSettings) (hour minute now : Nat) :
    (settings.enabled = false →
      scheduleLateReminders settings hour minute now = none)
  ∧ (settings.enabled = true → 1 ≤ settings.hours →
      now = dayOf now * minutesPerDay + hour * 60 + minute →
      scheduleLateReminders settings hour minute now
        = some (now + settings.hours * 60)) := by
  constructor
  · intro h
    simp [scheduleLateReminders, h]
  · intro h hpos hnow
    have he : dayOf now * minutesPerDay + hour * 60 + minute
        + settings.hours * 60 = now + settings.hours * 60 := by omega
    have hlt : now < now + settings.hours * 60 := by omega
    simp [scheduleLateReminders, h, he, hlt]

/-- Witness for C7: trigger 09:00, delay 4 hours, invoked at minute 540
(09:00 of day 0) → the check is installed for minute 780 (13:00); with the
flag off nothing is installed. -/
theorem c7_late_check_time_witness :
    scheduleLateReminders ⟨true, 4⟩ 9 0 540 = some 780 ∧
    scheduleLateReminders ⟨false, 4⟩ 9 0 540 = none :=
  ⟨(c7_late_check_time ⟨true, 4⟩ 9 0 540).2 rfl (by decide) (by decide),
   (c7_late_check_time ⟨false, 4⟩ 9 0 540).1 rfl⟩

/-- C3 counterexample.  The claim says a scheduled-trigger attempt to start
an interview for a participant with a live session is rejected and leaves
the session's question index unchanged.  The scheduled trigger calls
`startUserStandup`, which overwrites: for user 7 with a live session at
question index 1, the index afterwards is 0, not 1. -/
theorem c3_counterexample :
    mapGet (startUserStandup ⟨[(7, 1)], [], [], [], []⟩ 7).userStates 7 = some 0
    ∧ (some 0 : Option Nat) ≠ some 1 := by
  constructor
  · rfl
  · decide

/-- C3 amended.  The manual `/standup` command for a participant with a
live session is rejected with the session-already-open message and changes
nothing but the outbound message log; the scheduled trigger path
(`startUserStandup`), however, unconditionally resets the live session's
question index to 0, retaining the collected answer buffer. -/
theorem c3_single_session (st : EngineState) (isSub : Bool) (uid : Nat) :
    ((mapGet st.userStates uid).isSome = true →
      standupCommand st isSub uid =
        ({ st with userMsgs := st.userMsgs ++
            [(uid, "You already have an ongoing standup session. Please complete it first.")] },
         CmdReply.sessionOpen))
  ∧ (mapGet (startUserStandup st uid).userStates uid = some 0 ∧
     (startUserStandup st uid).standupResponses = st.standupResponses) := by
  refine ⟨fun h => ?_, ?_, rfl⟩
  · simp [standupCommand, h]
  · exact mapGet_mapSet_self st.userStates uid 0

/-- Witness for C3's amended theorem at a concrete state with a live
session. -/
theorem c3_single_session_witness :
    (standupCommand ⟨[(7, 1)], [], [], [], []⟩ true 7).2 = CmdReply.sessionOpen
    ∧ mapGet (startUserStandup ⟨[(7, 1)], [], [], [], []⟩ 7).userStates 7
      = some 0 := by
  have h := c3_single_session ⟨[(7, 1)], [], [], [], []⟩ true 7
  exact ⟨by rw [h.1 rfl], h.2.1⟩

/-- C9 counterexample.  The claim says a mutation of the late-reminder
delay cancels the affected job(s) and installs a replacement.  With a
pending late check at minute 780 (13:00, from trigger 09:00 + 4 h), the
`/late_reminder_hours 2` handler leaves the live job set untouched: the
13:00 check survives and no 11:00 (minute 660) replacement exists. -/
theorem c9_counterexample :
    (lateReminderHoursHandler ⟨[Job.standupTrigger 9 0, Job.lateCheck 780]⟩
        ⟨9, 0, true, 4⟩ true 2).1
      = ⟨[Job.standupTrigger 9 0, Job.lateCheck 780]⟩
    ∧ Job.lateCheck 660 ∉
      (lateReminderHoursHandler ⟨[Job.standupTrigger 9 0, Job.lateCheck 780]⟩
        ⟨9, 0, true, 4⟩ true 2).1.jobs := by
  constructor
  · rfl
  · decide

/-- C9 amended.  An admin mutation of the trigger hour/minute cancels the
previous recurring trigger job and installs the replacement — afterwards
exactly one recurring trigger job is live, carrying the new time, so the
new value takes effect on the next cycle; an admin mutation of the
late-reminder delay only updates the stored setting and neither cancels nor
installs any job. -/
theorem c9_reconfiguration (o : Orchestrator) (s : Settings)
    (hour minute hours : Nat) (hh : hour ≤ 23) (hm : minute ≤ 59)
    (h1 : 1 ≤ hours) (h12 : hours ≤ 12) :
    ((setTimeHandler o s true hour minute).1.jobs.filter
        (fun j => j.isStandupTrigger) = [Job.standupTrigger hour minute]
      ∧ (setTimeHandler o s true hour minute).2.standup_hour = hour
      ∧ (setTimeHandler o s true hour minute).2.standup_minute = minute)
  ∧ lateReminderHoursHandler o s true hours
      = (o, { s with late_reminder_hours := hours }) := by
  have hc1 : ¬(23 < hour ∨ 59 < minute) := by omega
  have hc2 : ¬(hours < 1 ∨ 12 < hours) := by omega
  refine ⟨⟨?_, ?_, ?_⟩, ?_⟩
  · have hnil : (o.jobs.filter (fun j => !j.isStandupTrigger)).filter
        (fun j => j.isStandupTrigger) = [] := by
      rw [List.filter_eq_nil_iff]
      intro j hj
      have h2 := (List.mem_filter.mp hj).2
      simp only [Bool.not_eq_true'] at h2
      simp [h2]
    simp [setTimeHandler, hc1, scheduleStandups, List.filter_append, hnil,
      List.filter, Job.isStandupTrigger]
  · simp [setTimeHandler, hc1]
  · simp [setTimeHandler, hc1]
  · have hc3 : ¬(hours = 0 ∨ 12 < hours) := by omega
    simp [lateReminderHoursHandler, hc3]

/-- Witness for C9's amended theorem at concrete inputs (trigger moved to
10:30, delay set to 2 hours). -/
theorem c9_reconfiguration_witness :
    (setTimeHandler ⟨[Job.standupTrigger 9 0]⟩ ⟨9, 0, true, 4⟩ true 10 30).1.jobs.filter
        (fun j => j.isStandupTrigger) = [Job.standupTrigger 10 30]
    ∧ lateReminderHoursHandler ⟨[Job.standupTrigger 9 0]⟩ ⟨9, 0, true, 4⟩ true 2
      = (⟨[Job.standupTrigger 9 0]⟩, ⟨9, 0, true, 2⟩) := by
  have h := c9_reconfiguration ⟨[Job.standupTrigger 9 0]⟩ ⟨9, 0, true, 4⟩
    10 30 2 (by decide) (by decide) (by decide) (by decide)
  exact ⟨h.1.1, h.2⟩

/-- C1 counterexample.  The spec's own example: trigger 09:00, subscriber
timezone America/New_York (offset 1140 ≡ −300 mod 1440), reference instant
840 (Thursday 14:00): the subscriber is active, the instant is a weekday
and the subscriber's local hour:minute is 09:00 — the claim says matched —
but the daily job only fires when the reference clock itself reads 09:00,
so nobody is matched at 14:00. -/
theorem c1_counterexample :
    (⟨7, "alice", some "America/New_York", false, none⟩ : Subscription) ∈
      getActiveSubscribers [⟨7, "alice", some "America/New_York", false, none⟩]
        (dayOf 840)
    ∧ isWeekday 840 = true
    ∧ hmOf (840 + (fun tz => if tz = "America/New_York" then 1140 else 0)
        (jsOr (some "America/New_York") "Europe/Lisbon")) = (9, 0)
    ∧ standupTick (fun tz => if tz = "America/New_York" then 1140 else 0) 9 0
        [⟨7, "alice", some "America/New_York", false, none⟩] 840 = [] := by
  refine ⟨by decide, by decide, by decide, by decide⟩

/-- C1 amended.  A subscriber is matched by a firing of the daily standup
job at instant `t` iff `t` is a weekday, the reference clock at `t` itself
reads the trigger hour:minute (the cron expression fires only then), the
subscriber is in the active set, and the subscriber's local hour:minute at
`t` equals the trigger hour:minute. -/
theorem c1_trigger_match (tzOffset : String → Nat) (hour minute : Nat)
    (subs : List Subscription) (t : Nat) (s : Subscription) :
    s ∈ standupTick tzOffset hour minute subs t ↔
      (isWeekday t = true ∧ hmOf t = (hour, minute) ∧
       s ∈ getActiveSubscribers subs (dayOf t) ∧
       hmOf (t + tzOffset (jsOr s.timezone "Europe/Lisbon")) = (hour, minute)) := by
  unfold standupTick
  by_cases hc : (isWeekday t && (hmOf t).1 == hour && (hmOf t).2 == minute) = true
  · rw [if_pos hc]
    simp only [Bool.and_eq_true, beq_iff_eq] at hc
    obtain ⟨⟨hw, h1⟩, h2⟩ := hc
    simp only [List.mem_filter, Bool.and_eq_true, beq_iff_eq, hw, true_and]
    constructor
    · rintro ⟨hmster, hl1, hl2⟩
      exact ⟨Prod.ext_iff.mpr ⟨h1, h2⟩, hmster, Prod.ext_iff.mpr ⟨hl1, hl2⟩⟩
    · rintro ⟨-, hmster, hl⟩
      exact ⟨hmster, by rw [hl], by rw [hl]⟩
  · rw [if_neg hc]
    constructor
    · intro h
      exact absurd h (List.not_mem_nil s)
    · rintro ⟨hw, hp, -, -⟩
      exact absurd (by simp [hw, hp] :
        (isWeekday t && (hmOf t).1 == hour && (hmOf t).2 == minute) = true) hc

/-- C2 counterexample.  Subscriber 7 has the vacation flag set with an end
date (day 5) before today (day 10), and no standup today.  The claim says
she qualifies for a late reminder; the fired late-reminder job filters on
the raw `isOnVacation` flag, so it sends nothing and records nothing. -/
theorem c2_counterexample :
    getActiveSubscribers [⟨7, "alice", none, true, some 5⟩] 10
      = [⟨7, "alice", none, true, some 5⟩]
    ∧ lateReminderJobRun [⟨7, "alice", none, true, some 5⟩] [] 10 [] []
      = ([], []) := by
  refine ⟨by decide, by decide⟩

/-- C2 amended.  A participant whose vacation flag is set but whose
vacation-end date is in the past is included in the active-subscriber set
the trigger evaluates; for late-reminder eligibility, however, the raw
vacation flag is consulted, so that participant's status entry carries
`isOnVacation = true` and is excluded from the late-reminder missing
list. -/
theorem c2_expired_vacation (subs : List Subscription)
    (standups : List StandupRow) (today : Nat) (s : Subscription) (d : Nat)
    (hmem : s ∈ subs) (hflag : s.is_on_vacation = true)
    (huntil : s.vacation_until = some d) (hpast : d < today) :
    s ∈ getActiveSubscribers subs today
  ∧ (∃ b, (⟨s.username, b, true, s.vacation_until⟩ : StatusEntry) ∈
        getStandupStatus subs standups today
      ∧ (⟨s.username, b, true, s.vacation_until⟩ : StatusEntry) ∉
        lateMissing subs standups today) := by
  refine ⟨?_, ?_⟩
  · rw [getActiveSubscribers, List.mem_filter]
    refine ⟨hmem, ?_⟩
    simp [hflag, huntil, hpast]
  · refine ⟨((standups.filter (fun r => dayOf r.submitted_at == today)).find?
        (fun r => r.user_id == s.user_id)).isSome, ?_, ?_⟩
    · rw [getStandupStatus]
      apply List.mem_map.mpr
      exact ⟨s, hmem, by rw [hflag]⟩
    · intro hmm
      rw [lateMissing, List.mem_filter] at hmm
      have h2 := hmm.2
      simp at h2

/-- Witness for C2's amended theorem at a concrete subscriber whose
vacation expired (end day 5, today day 10). -/
theorem c2_expired_vacation_witness :
    (⟨7, "alice", none, true, some 5⟩ : Subscription) ∈
      getActiveSubscribers [⟨7, "alice", none, true, some 5⟩] 10
  ∧ (∃ b, (⟨"alice", b, true, some 5⟩ : StatusEntry) ∈
        getStandupStatus [⟨7, "alice", none, true, some 5⟩] [] 10
      ∧ (⟨"alice", b, true, some 5⟩ : StatusEntry) ∉
        lateMissing [⟨7, "alice", none, true, some 5⟩] [] 10) :=
  c2_expired_vacation [⟨7, "alice", none, true, some 5⟩] [] 10
    ⟨7, "alice", none, true, some 5⟩ 5 (by decide) rfl rfl (by decide)

/-- C4.  Skip is accepted at question index 0 (AwaitingYesterday): the slot
is stored as the empty string and the session advances to index 1; accepted
at index 2 (AwaitingBlockers): the slot is stored empty and the session
completes (session destroyed, row persisted with empty blockers); rejected
at index 1 (AwaitingToday) with the cannot-skip message and no change to the
session or buffers. -/
theorem c4_skip_matrix (st : EngineState) (uid : Nat) (uname : String)
    (now : Nat) :
    (mapGet st.userStates uid = some 0 →
      (skipHandler st uid uname now).2 = SkipReply.advanced ∧
      mapGet (skipHandler st uid uname now).1.userStates uid = some 1 ∧
      ∃ resp, mapGet (skipHandler st uid uname now).1.standupResponses uid
          = some resp ∧ resp.answers.getD 0 none = some "")
  ∧ (mapGet st.userStates uid = some 2 →
      (skipHandler st uid uname now).2 = SkipReply.completed ∧
      mapGet (skipHandler st uid uname now).1.userStates uid = none ∧
      ∃ row, row ∈ (skipHandler st uid uname now).1.standups ∧
        row.user_id = uid ∧ row.submitted_at = now ∧ row.blockers = some "")
  ∧ (mapGet st.userStates uid = some 1 →
      (skipHandler st uid uname now).1 =
        { st with userMsgs := st.userMsgs ++
            [(uid, "This question cannot be skipped. Please provide an answer.")] } ∧
      (skipHandler st uid uname now).2 = SkipReply.cannotSkip) := by
  refine ⟨fun h => ?_, fun h => ?_, fun h => ?_⟩
  · unfold skipHandler
    rw [h]
    simp only []
    norm_num
    refine ⟨mapGet_mapSet_self _ _ _, ?_⟩
    refine ⟨_, mapGet_mapSet_self _ _ _, ?_⟩
    simp [jsArraySet_getElem?]
  · unfold skipHandler
    rw [h]
    simp only []
    norm_num
    refine ⟨mapGet_mapDel_self _ _, ?_⟩
    refine ⟨_, List.mem_append_right _ (List.mem_singleton_self _), rfl, rfl, ?_⟩
    simp [jsArraySet_getElem?]
  · unfold skipHandler
    rw [h]
    simp only []
    norm_num

/-- Witness for C4 at concrete sessions in each of the three states. -/
theorem c4_skip_matrix_witness :
    ((skipHandler ⟨[(7, 0)], [], [], [], []⟩ 7 "bob" 50).2 = SkipReply.advanced ∧
      mapGet (skipHandler ⟨[(7, 0)], [], [], [], []⟩ 7 "bob" 50).1.userStates 7
        = some 1 ∧
      ∃ resp, mapGet (skipHandler ⟨[(7, 0)], [], [], [], []⟩ 7 "bob"
          50).1.standupResponses 7 = some resp ∧
        resp.answers.getD 0 none = some "")
  ∧ ((skipHandler ⟨[(8, 1)], [], [], [], []⟩ 8 "eve" 50).2
      = SkipReply.cannotSkip) := by
  refine ⟨(c4_skip_matrix ⟨[(7, 0)], [], [], [], []⟩ 7 "bob" 50).1 (by decide),
    ((c4_skip_matrix ⟨[(8, 1)], [], [], [], []⟩ 8 "eve" 50).2.2 (by decide)).2⟩

/-- C8.  When the free-text handler receives the final answer (session at
question index 2), the session entry and the answer buffer are removed on
every path — whether the awaited persistence call succeeds or throws — so
the participant is never left with a stuck session; on success the
assembled row is persisted (stamped with the completion instant) and the
compiled summary is emitted to the shared channel; on failure nothing is
persisted and completion is not retried. -/
theorem c8_completion_teardown (st : EngineState) (uid : Nat)
    (uname text : String) (now : Nat) (ok : Bool)
    (hq : mapGet st.userStates uid = some 2)
    (hs : startsWithSlash text = false) :
    mapGet (messageHandler st uid uname text now ok).userStates uid = none
  ∧ mapGet (messageHandler st uid uname text now ok).standupResponses uid = none
  ∧ (ok = true →
      (∃ row, row ∈ (messageHandler st uid uname text now ok).standups ∧
        row.user_id = uid ∧ row.submitted_at = now)
      ∧ (∃ m, (messageHandler st uid uname text now ok).channelMsgs
          = st.channelMsgs ++ [m]))
  ∧ (ok = false →
      (messageHandler st uid uname text now ok).standups = st.standups) := by
  unfold messageHandler
  rw [hs, hq]
  norm_num
  cases ok
  · refine ⟨mapGet_mapDel_self _ _, mapGet_mapDel_self _ _, ?_, fun _ => rfl⟩
    intro h
    exact absurd h (by decide)
  · refine ⟨mapGet_mapDel_self _ _, mapGet_mapDel_self _ _, ?_, ?_⟩
    · intro _
      exact ⟨⟨_, List.mem_append_right _ (List.mem_singleton_self _), rfl, rfl⟩,
        ⟨_, rfl⟩⟩
    · intro h
      exact absurd h (by decide)

/-- Witness for C8: concrete session at the final question, persistence
succeeding. -/
theorem c8_completion_teardown_witness :
    mapGet (messageHandler ⟨[(7, 2)], [], [], [], []⟩ 7 "bob" "done" 11
        true).userStates 7 = none
  ∧ mapGet (messageHandler ⟨[(7, 2)], [], [], [], []⟩ 7 "bob" "done" 11
        true).standupResponses 7 = none
  ∧ (true = true →
      (∃ row, row ∈ (messageHandler ⟨[(7, 2)], [], [], [], []⟩ 7 "bob" "done" 11
          true).standups ∧ row.user_id = 7 ∧ row.submitted_at = 11)
      ∧ (∃ m, (messageHandler ⟨[(7, 2)], [], [], [], []⟩ 7 "bob" "done" 11
          true).channelMsgs = ([] : List String) ++ [m]))
  ∧ (true = false →
      (messageHandler ⟨[(7, 2)], [], [], [], []⟩ 7 "bob" "done" 11
        true).standups = []) :=
  c8_completion_teardown ⟨[(7, 2)], [], [], [], []⟩ 7 "bob" "done" 11 true
    (by decide) (by decide)

theorem lateLoop_skip_of_recorded (subs : List Subscription)
    (es : List StatusEntry) (records sent : List Nat) (u : Nat)
    (hu : u ∈ records) :
    (lateReminderLoop subs es records sent).2.count u = sent.count u
    ∧ u ∈ (lateReminderLoop subs es records sent).1 := by
  induction es generalizing records sent with
  | nil => exact ⟨rfl, hu⟩
  | cons e rest ih =>
    simp only [lateReminderLoop]
    cases hfind : getSubscriberByUsername subs e.username with
    | none => exact ih records sent hu
    | some sub =>
      by_cases hmemr : sub.user_id ∈ records
      · simp only [if_pos hmemr]
        exact ih records sent hu
      · simp only [if_neg hmemr]
        have hne : sub.user_id ≠ u := fun he => hmemr (he ▸ hu)
        obtain ⟨h1, h2⟩ := ih (records ++ [sub.user_id]) (sent ++ [sub.user_id])
          (List.mem_append_left _ hu)
        refine ⟨?_, h2⟩
        rw [h1, List.count_append]
        have hz : List.count u [sub.user_id] = 0 :=
          List.count_eq_zero.mpr (fun hmm => (Ne.symm hne) (List.mem_singleton.mp hmm))
        omega

theorem lateLoop_count_le (subs : List Subscription) (es : List StatusEntry)
    (records sent : List Nat) (u : Nat) :
    (lateReminderLoop subs es records sent).2.count u ≤ sent.count u + 1
    ∧ ((lateReminderLoop subs es records sent).2.count u = sent.count u + 1 →
        u ∈ (lateReminderLoop subs es records sent).1) := by
  induction es generalizing records sent with
  | nil =>
    simp only [lateReminderLoop]
    exact ⟨Nat.le_succ _, fun h => absurd h (by omega)⟩
  | cons e rest ih =>
    simp only [lateReminderLoop]
    cases hfind : getSubscriberByUsername subs e.username with
    | none => exact ih records sent
    | some sub =>
      by_cases hmemr : sub.user_id ∈ records
      · simp only [if_pos hmemr]
        exact ih records sent
      · simp only [if_neg hmemr]
        by_cases heq : sub.user_id = u
        · subst heq
          obtain ⟨h1, h2⟩ := lateLoop_skip_of_recorded subs rest
            (records ++ [sub.user_id]) (sent ++ [sub.user_id]) sub.user_id
            (List.mem_append_right _ (List.mem_singleton_self _))
          have hc : (sent ++ [sub.user_id]).count sub.user_id
              = sent.count sub.user_id + 1 := by
            simp [List.count_append]
          rw [h1, hc]
          exact ⟨Nat.le_refl _, fun _ => h2⟩
        · obtain ⟨h1, h2⟩ := ih (records ++ [sub.user_id]) (sent ++ [sub.user_id])
          have hc : (sent ++ [sub.user_id]).count u = sent.count u := by
            rw [List.count_append]
            have hz : List.count u [sub.user_id] = 0 :=
              List.count_eq_zero.mpr
                (fun hmm => heq (List.mem_singleton.mp hmm).symm)
            omega
          rw [hc] at h1 h2
          exact ⟨h1, h2⟩

/-- C6.  Across two consecutive runs of the fired late-reminder job body on
the same `late_reminders` table, a user is sent at most one late reminder —
the record is inserted immediately after each send, and a user with an
existing record for the day is skipped (sent nothing on the whole run). -/
theorem c6_late_reminder_debounce (subs1 subs2 : List Subscription)
    (standups1 standups2 : List StandupRow) (today1 today2 : Nat)
    (records : List Nat) (u : Nat) :
    ((lateReminderJobRun subs2 standups2 today2
        (lateReminderJobRun subs1 standups1 today1 records []).1
        (lateReminderJobRun subs1 standups1 today1 records []).2).2.count u ≤ 1)
  ∧ (u ∈ records →
      (lateReminderJobRun subs1 standups1 today1 records []).2.count u = 0) := by
  constructor
  · have hb1 := lateLoop_count_le subs1 (lateMissing subs1 standups1 today1)
      records [] u
    simp only [List.count_nil] at hb1
    by_cases hone : (lateReminderJobRun subs1 standups1 today1 records []).2.count u = 1
    · have hmem := hb1.2 (by simpa [lateReminderJobRun] using hone)
      have ha := lateLoop_skip_of_recorded subs2
        (lateMissing subs2 standups2 today2)
        (lateReminderJobRun subs1 standups1 today1 records []).1
        (lateReminderJobRun subs1 standups1 today1 records []).2 u
        (by simpa [lateReminderJobRun] using hmem)
      simp only [lateReminderJobRun] at ha ⊢
      omega
    · have hz : (lateReminderJobRun subs1 standups1 today1 records []).2.count u
          = 0 := by
        simp only [lateReminderJobRun] at hone ⊢
        omega
      have hb2 := lateLoop_count_le subs2 (lateMissing subs2 standups2 today2)
        (lateReminderJobRun subs1 standups1 today1 records []).1
        (lateReminderJobRun subs1 standups1 today1 records []).2 u
      simp only [lateReminderJobRun] at hz hb2 ⊢
      omega
  · intro hu
    have ha := lateLoop_skip_of_recorded subs1
      (lateMissing subs1 standups1 today1) records [] u hu
    simpa [lateReminderJobRun] using ha.1

/-- Witness for C6: user 7 already holds a record for today, so two runs
send nothing and the total stays at most one. -/
theorem c6_late_reminder_debounce_witness :
    ((lateReminderJobRun [⟨7, "alice", none, false, none⟩] [] 0
        (lateReminderJobRun [⟨7, "alice", none, false, none⟩] [] 0 [7] []).1
        (lateReminderJobRun [⟨7, "alice", none, false, none⟩] [] 0 [7] []).2).2.count 7 ≤ 1)
  ∧ (7 ∈ [7] →
      (lateReminderJobRun [⟨7, "alice", none, false, none⟩] [] 0 [7] []).2.count 7
        = 0) :=
  c6_late_reminder_debounce [⟨7, "alice", none, false, none⟩]
    [⟨7, "alice", none, false, none⟩] [] [] 0 0 [7] 7

theorem isTzFormat_ne_empty {tz : String} (h : isTzFormat tz = true) :
    tz ≠ "" := by
  intro heq
  subst heq
  exact absurd h (by decide)

theorem tz_invariant {st : TzTable} (h : TzReachable st) :
    ∀ p ∈ st, ∃ s, p.2 = some s ∧ s ≠ "" := by
  induction h with
  | init =>
    intro p hp
    exact absurd hp (List.not_mem_nil p)
  | subscribe uid hr ih =>
    intro p hp
    rcases List.mem_cons.mp hp with hh | ht
    · exact ⟨"Europe/Lisbon", by rw [hh], by decide⟩
    · exact ih p (List.mem_filter.mp ht).1
  | unsubscribe uid hr ih =>
    intro p hp
    exact ih p (List.mem_filter.mp hp).1
  | setTz uid tz hr hfmt ih =>
    intro p hp
    rcases List.mem_map.mp hp with ⟨q, hq, hmap⟩
    by_cases hb : (q.1 == uid) = true
    · rw [if_pos hb] at hmap
      exact ⟨tz, by rw [← hmap], isTzFormat_ne_empty hfmt⟩
    · rw [if_neg hb] at hmap
      rw [← hmap]
      exact ih q hq

/-- C10.  On every table state reachable through the bot's own mutators,
`getUserTimezone` returns the default `'Europe/Lisbon'` when no
subscription row exists for the identifier or the stored timezone is null,
and the stored timezone string otherwise. -/
theorem c10_timezone_default (st : TzTable) (h : TzReachable st) (uid : Nat) :
    getUserTimezone st uid =
      match st.find? (fun p => p.1 == uid) with
      | none => "Europe/Lisbon"
      | some (_, none) => "Europe/Lisbon"
      | some (_, some s) => s := by
  cases hfind : st.find? (fun p => p.1 == uid) with
  | none => simp [getUserTimezone, hfind, jsOr]
  | some q =>
    obtain ⟨k, tz⟩ := q
    cases tz with
    | none => simp [getUserTimezone, hfind, jsOr]
    | some s =>
      have hmem := List.mem_of_find?_eq_some hfind
      obtain ⟨s2, hs2, hne⟩ := tz_invariant h _ hmem
      have hss : s = s2 := by
        simpa using hs2
      have hsne : s ≠ "" := hss ▸ hne
      simp [getUserTimezone, hfind, jsOr, hsne]

/-- Witness for C10: after subscribing user 7 and setting a valid timezone,
the stored string is returned for user 7 and the default for unknown user
9. -/
theorem c10_timezone_default_witness :
    getUserTimezone (setUserTimezone (addSubscriberTz [] 7) 7
      "America/New_York") 7 = "America/New_York"
  ∧ getUserTimezone (setUserTimezone (addSubscriberTz [] 7) 7
      "America/New_York") 9 = "Europe/Lisbon" := by
  have hr : TzReachable (setUserTimezone (addSubscriberTz [] 7) 7
      "America/New_York") :=
    TzReachable.setTz 7 "America/New_York"
      (TzReachable.subscribe 7 TzReachable.init) (by decide)
  constructor
  · rw [c10_timezone_default _ hr 7]
    rfl
  · rw [c10_timezone_default _ hr 9]
    rfl

/-- Witness for C1's amended theorem: a Lisbon-default subscriber is matched
when the reference clock reads the trigger moment on a weekday. -/
theorem c1_trigger_match_witness :
    (⟨7, "alice", none, false, none⟩ : Subscription) ∈
      standupTick (fun _ => 0) 9 0 [⟨7, "alice", none, false, none⟩] 540 := by
  rw [c1_trigger_match]
  exact ⟨by decide, by decide, by decide, by decide⟩
